import Mathlib

/-!
# Verification of the tftp3o TFTP read-server protocol engine

Shallow embedding of `src/tftp.rs` and the dispatch logic of `src/main.rs`.

Conventions of the embedding:
* Bytes are `Nat` (values < 256 on real inputs); byte buffers are `List Nat`.
* Rust `usize` is `Nat`; where the source uses `checked_mul`/`checked_add`
  followed by `.unwrap()`, the model checks the product/sum against
  `USIZE_MAX` and signals a panic when it would overflow.
* A Rust panic (`unimplemented!`, `.unwrap()` on `None`/`Err`, out-of-bounds
  indexing) is modelled as `Except.error ()`; a normal result is `Except.ok`.
* The 16-bit block number of a `Data` packet wraps modulo 2^16, matching the
  wire format (release-build wrapping arithmetic of `ack.block + 1`).
* File-system access (`File::open` + `read_to_end` in `Tftp::respond`) is a
  parameter `fs : List Nat → Option (List Nat)` mapping a filename to its
  content; `none` means the file cannot be opened, on which the source
  `.unwrap()` panics.
-/

/-- `usize::MAX` on a 64-bit target. -/
def USIZE_MAX : Nat := 2 ^ 64 - 1

/-- Embedding of `slice_to_usize` (`tftp.rs:4-11`): UTF-8 decode then
`str::parse::<usize>`; any failure reaches `unimplemented!`, a panic.
Rust's `usize` parser accepts an optional leading `+`, requires at least one
ASCII digit, nothing else, and fails on overflow past `usize::MAX`. -/
def slice_to_usize (s : List Nat) : Except Unit Nat :=
  let digits := if s.head? = some 43 then s.tail else s
  if digits ≠ [] ∧ digits.all (fun c => 48 ≤ c ∧ c ≤ 57) then
    let v := digits.foldl (fun acc c => acc * 10 + (c - 48)) 0
    if v ≤ USIZE_MAX then Except.ok v else Except.error ()
  else Except.error ()

/-- Embedding of `struct Session` (`tftp.rs:17-35`). -/
structure Session where
  data : List Nat
  block_size : Nat
  file_size : Nat
  window_size : Nat
deriving DecidableEq, Repr

def Session.DEFAULT_BLOCK_SIZE : Nat := 512
def Session.DEFAULT_WINDOW_SIZE : Nat := 1

/-- `Session::new` (`tftp.rs:27-34`). -/
def Session.new : Session :=
  { data := [], block_size := Session.DEFAULT_BLOCK_SIZE,
    file_size := 0, window_size := Session.DEFAULT_WINDOW_SIZE }

/-- Embedding of `enum TftpOption` (`tftp.rs:37-42`). -/
inductive TftpOption where
  | TransferSize (value : Nat)
  | BlockSize (value : Nat)
  | WindowSize (value : Nat)
deriving DecidableEq, Repr

/-- The ASCII bytes of `tsize` (`TftpOption::TSIZE`). -/
def TftpOption.TSIZE : List Nat := [0x74, 0x73, 0x69, 0x7a, 0x65]
/-- The ASCII bytes of `blksize` (`TftpOption::BLKSIZE`). -/
def TftpOption.BLKSIZE : List Nat := [0x62, 0x6c, 0x6b, 0x73, 0x69, 0x7a, 0x65]
/-- The ASCII bytes of `windowsize` (`TftpOption::WINDOWSIZE`). -/
def TftpOption.WINDOWSIZE : List Nat :=
  [0x77, 0x69, 0x6e, 0x64, 0x6f, 0x77, 0x73, 0x69, 0x7a, 0x65]
/-- `TftpOption::END`: the empty segment. -/
def TftpOption.END : List Nat := []
/-- `TftpOption::NULL`. -/
def TftpOption.NULL : Nat := 0x00

/-- The option name (as wire bytes) of a parsed option. -/
def TftpOption.name : TftpOption → List Nat
  | .TransferSize _ => TftpOption.TSIZE
  | .BlockSize _ => TftpOption.BLKSIZE
  | .WindowSize _ => TftpOption.WINDOWSIZE

/-- Rust `slice::split(|c| c == 0)`: `n` separators yield `n + 1` segments
(including empty ones); the empty slice yields one empty segment. -/
def splitNul : List Nat → List (List Nat)
  | [] => [[]]
  | c :: rest =>
    if c = 0 then [] :: splitNul rest
    else
      match splitNul rest with
      | s :: ss => (c :: s) :: ss
      | [] => [[c]]

/-- The `while let` loop of `TftpOption::parse` (`tftp.rs:80-94`) over the
segments produced by splitting on NUL.  A recognized name consumes the next
segment as its value (`options_raw.next().unwrap()` panics when absent); the
empty segment (`Self::END`) returns early; any other name reaches
`unimplemented!`, a panic. -/
def parseOptionSegments : List (List Nat) → Except Unit (List TftpOption)
  | [] => Except.ok []
  | seg :: rest =>
    if seg = TftpOption.TSIZE then
      match rest with
      | [] => Except.error ()
      | v :: rest' => do
        let n ← slice_to_usize v
        let os ← parseOptionSegments rest'
        Except.ok (TftpOption.TransferSize n :: os)
    else if seg = TftpOption.BLKSIZE then
      match rest with
      | [] => Except.error ()
      | v :: rest' => do
        let n ← slice_to_usize v
        let os ← parseOptionSegments rest'
        Except.ok (TftpOption.BlockSize n :: os)
    else if seg = TftpOption.WINDOWSIZE then
      match rest with
      | [] => Except.error ()
      | v :: rest' => do
        let n ← slice_to_usize v
        let os ← parseOptionSegments rest'
        Except.ok (TftpOption.WindowSize n :: os)
    else if seg = TftpOption.END then
      Except.ok []
    else
      Except.error ()

/-- `TftpOption::parse` (`tftp.rs:76-96`). -/
def TftpOption.parse (data : List Nat) : Except Unit (List TftpOption) :=
  parseOptionSegments (splitNul data)

/-- Embedding of `struct Acknowledgement` (`tftp.rs:198-201`); the Rust field
is `u16`, so on packets built by `Tftp::parse` the value is below 2^16. -/
structure Acknowledgement where
  block : Nat
deriving DecidableEq, Repr

/-- Embedding of `struct Data` (`tftp.rs:140-144`). -/
structure Data where
  block : Nat
  data : List Nat
deriving DecidableEq, Repr

/-- Embedding of `struct OptionAcknowledgement` (`tftp.rs:170-173`). -/
structure OptionAcknowledgement where
  options : List TftpOption
deriving DecidableEq, Repr

/-- Embedding of `struct ReadRequest` (`tftp.rs:203-208`); the two `CStr`
fields are the byte strings without their NUL terminators. -/
structure ReadRequest where
  filename : List Nat
  mode : List Nat
  options : List TftpOption
deriving DecidableEq, Repr

/-- Embedding of `enum Tftp` (`tftp.rs:132-138`). -/
inductive Tftp where
  | ReadRequest (req : ReadRequest)
  | Acknowledgement (ack : Acknowledgement)
  | OptionAcknowledgement (oack : OptionAcknowledgement)
  | Data (d : Data)
deriving DecidableEq, Repr

/-- `Data::new` (`tftp.rs:146-168`).  `checked_mul`/`checked_add` + `.unwrap()`
panic on `usize` overflow; slicing `session.data[a..b]` panics when `b`
exceeds the buffer length (`a ≤ b` always holds here).  The `u16` block
arithmetic `ack.block + 1` wraps at 2^16. -/
def Data.new (ack : Acknowledgement) (session : Session) : Except Unit (Option Data) :=
  let current_slice := ack.block * session.block_size
  if current_slice > USIZE_MAX then Except.error ()
  else if current_slice > session.file_size then Except.ok none
  else
    let sliceSum := current_slice + session.block_size
    if sliceSum > USIZE_MAX then Except.error ()
    else
      let current_slice_end := min sliceSum session.file_size
      if current_slice_end > session.data.length then Except.error ()
      else
        Except.ok (some
          { block := (ack.block + 1) % 2 ^ 16,
            data := (session.data.take current_slice_end).drop current_slice })

/-- The body of the `map` closure in `OptionAcknowledgement::new`
(`tftp.rs:181-191`), threading the `&mut Session` through the option list in
input order: `tsize` is replaced by `session.file_size`; `blksize` and
`windowsize` are stored into the session and echoed unchanged. -/
def confirmOptions : List TftpOption → Session → List TftpOption × Session
  | [], s => ([], s)
  | o :: os, s =>
    match o with
    | .TransferSize _ =>
      let (os', s') := confirmOptions os s
      (TftpOption.TransferSize s.file_size :: os', s')
    | .BlockSize b =>
      let (os', s') := confirmOptions os { s with block_size := b }
      (TftpOption.BlockSize b :: os', s')
    | .WindowSize w =>
      let (os', s') := confirmOptions os { s with window_size := w }
      (TftpOption.WindowSize w :: os', s')

/-- `OptionAcknowledgement::new` (`tftp.rs:175-196`). -/
def OptionAcknowledgement.new (req : ReadRequest) (session : Session) :
    OptionAcknowledgement × Session :=
  let (options, session') := confirmOptions req.options session
  ({ options := options }, session')

/-- `Tftp::OP_CODE_LEN`. -/
def Tftp.OP_CODE_LEN : Nat := 2
/-- `Tftp::NULL_SIZE`. -/
def Tftp.NULL_SIZE : Nat := 1

/-- `CStr::from_bytes_until_nul(..).unwrap()`: the bytes before the first NUL,
a panic when no NUL is present. -/
def cstrUntilNul (data : List Nat) : Except Unit (List Nat) :=
  if 0 ∈ data then Except.ok (data.takeWhile (fun c => c ≠ 0)) else Except.error ()

/-- `Tftp::parse` (`tftp.rs:237-262`).  `data[1]` panics when the buffer is
shorter than 2 bytes (byte 0 is never inspected); opcode 1 reads two
NUL-terminated strings then the options; opcode 4 reads a big-endian `u16`
from `data[2]`, `data[3]` (a panic when absent); every other opcode — valid or
not — reaches `unimplemented!`, a panic. -/
def Tftp.parse (data : List Nat) : Except Unit Tftp :=
  match data with
  | _ :: op :: rest =>
    if op = 1 then do
      let filename ← cstrUntilNul rest
      let afterName := rest.drop (filename.length + Tftp.NULL_SIZE)
      let mode ← cstrUntilNul afterName
      let afterMode := afterName.drop (mode.length + Tftp.NULL_SIZE)
      let options ← TftpOption.parse afterMode
      Except.ok (Tftp.ReadRequest { filename := filename, mode := mode, options := options })
    else if op = 4 then
      match rest with
      | b1 :: b2 :: _ => Except.ok (Tftp.Acknowledgement { block := b1 * 256 + b2 })
      | _ => Except.error ()
    else Except.error ()
  | _ => Except.error ()

/-- `Tftp::respond` (`tftp.rs:264-277`), with the file system as the oracle
`fs`.  On `ReadRequest`, `File::open(..).unwrap()` panics when the file cannot
be opened; `read_to_end` appends the content to `session.data` and returns the
number of bytes read, stored into `session.file_size`.  On `Acknowledgement`
the session is passed to `Data::new` unchanged.  Every other inbound packet
reaches `unimplemented!`, a panic.  The returned pair is (optional response,
resulting session). -/
def Tftp.respond (fs : List Nat → Option (List Nat)) :
    Tftp → Session → Except Unit (Option Tftp × Session)
  | Tftp.ReadRequest req, session =>
    match fs req.filename with
    | none => Except.error ()
    | some content =>
      let loaded := { session with
        data := session.data ++ content, file_size := content.length }
      let (oack, session') := OptionAcknowledgement.new req loaded
      Except.ok (some (Tftp.OptionAcknowledgement oack), session')
  | Tftp.Acknowledgement ack, session => do
    let d ← Data.new ack session
    Except.ok (d.map Tftp.Data, session)
  | _, _ => Except.error ()

/-- Decimal ASCII bytes of a number, as produced by `value.to_string()`. -/
def natToDecimal (n : Nat) : List Nat :=
  (Nat.toDigits 10 n).map Char.toNat

/-- `<TftpOption as Serialise>::serialise` (`tftp.rs:44-67`):
`name · NUL · decimal value · NUL`. -/
def TftpOption.serialise (o : TftpOption) : List Nat :=
  match o with
  | .TransferSize v => TftpOption.TSIZE ++ [TftpOption.NULL] ++ natToDecimal v ++ [TftpOption.NULL]
  | .BlockSize v => TftpOption.BLKSIZE ++ [TftpOption.NULL] ++ natToDecimal v ++ [TftpOption.NULL]
  | .WindowSize v => TftpOption.WINDOWSIZE ++ [TftpOption.NULL] ++ natToDecimal v ++ [TftpOption.NULL]

/-- `<Tftp as Serialise>::serialise` (`tftp.rs:210-231`): implemented for
`OptionAcknowledgement` (opcode bytes `[0, 6]` then each option) and `Data`
(opcode bytes `[0, 3]`, big-endian block, payload); every other variant
reaches `unimplemented!`, a panic. -/
def Tftp.serialise : Tftp → Except Unit (List Nat)
  | Tftp.OptionAcknowledgement oack =>
    Except.ok ([0, 6] ++ (oack.options.map TftpOption.serialise).flatten)
  | Tftp.Data d =>
    Except.ok ([0, 3] ++ [d.block / 256 % 256, d.block % 256] ++ d.data)
  | _ => Except.error ()

/-- `Tftp::handle` (`tftp.rs:279-283`): parse, respond, serialise. -/
def Tftp.handle (fs : List Nat → Option (List Nat)) (session : Session)
    (data : List Nat) : Except Unit (Option (List Nat) × Session) := do
  let packet ← Tftp.parse data
  let (response, session') ← Tftp.respond fs packet session
  match response with
  | none => Except.ok (none, session')
  | some r => do
    let bytes ← r.serialise
    Except.ok (some bytes, session')

/-- A 5000-byte resource, for the negotiated-window scenario of the spec. -/
def resource5000 : List Nat := List.replicate 5000 7

/-- A session that has loaded a 65535-byte resource with negotiated block
size 1: block 65535 is its final data block. -/
def sessionWrap : Session := Session.mk (List.replicate 65535 0) 1 65535 1

/-- A session that has loaded a 65536-byte resource with negotiated block
size 1: the transfer needs more blocks than a 16-bit number can index. -/
def session65536 : Session := Session.mk (List.replicate 65536 0) 1 65536 1

/-! ## Helper lemmas -/

theorem exceptBindOk {α β : Type} {x : Except Unit α} {f : α → Except Unit β} {b : β}
    (h : (x >>= f) = Except.ok b) : ∃ a, x = Except.ok a ∧ f a = Except.ok b := by
  cases x with
  | error e => simp [Bind.bind, Except.bind] at h
  | ok a => exact ⟨a, rfl, by simpa [Bind.bind, Except.bind] using h⟩

theorem confirmOptions_names (os : List TftpOption) (s : Session) :
    (confirmOptions os s).1.map TftpOption.name = os.map TftpOption.name := by
  induction os generalizing s with
  | nil => rfl
  | cons o os ih => cases o <;> simp [confirmOptions, TftpOption.name, ih]

theorem confirmOptions_tsize (os : List TftpOption) (s : Session) (i v : Nat)
    (h : os[i]? = some (TftpOption.TransferSize v)) :
    (confirmOptions os s).1[i]? = some (TftpOption.TransferSize s.file_size) := by
  induction os generalizing s i with
  | nil => simp at h
  | cons o os ih =>
    cases i with
    | zero =>
      simp only [List.getElem?_cons_zero, Option.some.injEq] at h
      subst h
      simp [confirmOptions]
    | succ n =>
      simp only [List.getElem?_cons_succ] at h
      cases o <;> simp only [confirmOptions, List.getElem?_cons_succ] <;> exact ih _ _ h

theorem respond_read_eq (fs : List Nat → Option (List Nat)) (req : ReadRequest)
    (s : Session) (content : List Nat) (h : fs req.filename = some content) :
    Tftp.respond fs (Tftp.ReadRequest req) s =
      Except.ok (some (Tftp.OptionAcknowledgement
        (OptionAcknowledgement.new req
          (Session.mk (s.data ++ content) s.block_size content.length s.window_size)).1),
        (OptionAcknowledgement.new req
          (Session.mk (s.data ++ content) s.block_size content.length s.window_size)).2) := by
  simp only [Tftp.respond, h]

/-! ## Claims -/

/-- C3: the claim says decoding is total and returns `DecodeError::Malformed`
on any truncated field, missing terminator, or non-numeric option value.  The
code instead panics: this theorem evaluates `Tftp::parse` at a request whose
`blksize` option value is the non-numeric byte `x` (first conjunct) and at a
one-byte truncated buffer (second conjunct), both reaching a panic — no
`DecodeError` type exists anywhere in the code. -/
theorem C3_parse_panics_on_malformed_input :
    Tftp.parse [0, 1, 0x66, 0, 0x6f, 0,
      0x62, 0x6c, 0x6b, 0x73, 0x69, 0x7a, 0x65, 0, 0x78, 0] = Except.error () ∧
    Tftp.parse [0] = Except.error () := ⟨rfl, rfl⟩

/-- C6: the claim says an option name other than `tsize`/`blksize`/`windowsize`
is silently skipped and the recognized options are still parsed.  The code
instead hits `unimplemented!` (a panic) on the unknown name: this theorem
evaluates `TftpOption::parse` at the option list `timeout=5, blksize=512`,
which panics instead of returning the parsed `blksize`. -/
theorem C6_unknown_option_panics :
    TftpOption.parse [0x74, 0x69, 0x6d, 0x65, 0x6f, 0x75, 0x74, 0, 0x35, 0,
      0x62, 0x6c, 0x6b, 0x73, 0x69, 0x7a, 0x65, 0, 0x35, 0x31, 0x32, 0] =
      Except.error () := rfl

/-- C5: the claim says block-size and window-size values are validated against
the minimum 1 and a configured maximum, by rejection or clamping.  The code
performs no validation at all: this theorem evaluates the request handler at a
request carrying `blksize=0`, which installs block size 0 into the session and
confirms 0 in the OptionAcknowledgement — below the required minimum, neither
rejected nor clamped. -/
theorem C5_out_of_range_block_size_installed :
    Tftp.respond (fun _ => some [1, 2, 3])
      (Tftp.ReadRequest (ReadRequest.mk [0x66] [0x6f] [TftpOption.BlockSize 0]))
      Session.new =
      Except.ok (some (Tftp.OptionAcknowledgement (OptionAcknowledgement.mk
        [TftpOption.BlockSize 0])), Session.mk [1, 2, 3] 0 3 1) := rfl

/-- C8: the claim says a Request naming an unloadable resource yields an Error
packet (code 1, File not found), an Aborted session, and no crash.  The code
instead calls `File::open(..).unwrap()`, which panics and aborts the whole
process: this theorem evaluates `Tftp::handle` on a well-formed ReadRequest
with a file system that has no such file — the result is a panic, not an
Error packet (no Error packet constructor or Aborted state exists in the
code). -/
theorem C8_missing_resource_panics :
    Tftp.handle (fun _ => none) Session.new [0, 1, 0x66, 0, 0x6f, 0] =
      Except.error () := rfl

/-- C1 counterexample: the claim quantifies over every Acknowledgement block
number `b` with `b * B ≤ S` and promises a Data packet with block number
`b + 1`.  At `b = 65535` (the final data block of a 65535-byte resource with
block size 1) the precondition holds, yet the emitted packet carries block
number 0 — the 16-bit block field has wrapped — not `b + 1 = 65536`. -/
theorem C1_counterexample :
    65535 * 1 ≤ 65535 ∧
    Data.new (Acknowledgement.mk 65535) sessionWrap = Except.ok (some (Data.mk 0 [])) ∧
    (0 : Nat) ≠ 65535 + 1 := by
  refine ⟨by norm_num, ?_, by norm_num⟩
  norm_num [Data.new, sessionWrap, USIZE_MAX, List.take_replicate, List.drop_replicate]

/-- C1 (amended): for every session with loaded resource content of size `S`
(`data.length = S = file_size`) and negotiated block size `B`, and every
Acknowledgement with block number `b` such that `b * B ≤ S`, **provided
`b < 65535`** (so the 16-bit successor does not wrap; `b = 65535` is the wrap
counterexample) and `(b + 1) * B` is representable in `usize`, handling the
Acknowledgement produces a Data packet with block number `b + 1` whose payload
is exactly the resource bytes `[b*B, min ((b+1)*B) S)`: every non-final block
has length `B`, the final block has length `S % B`, and a zero-length terminal
block is produced when `b * B = S` (in particular when `S % B = 0`). -/
theorem C1_ack_yields_next_block (fs : List Nat → Option (List Nat)) (s : Session)
    (S B b : Nat)
    (hS : s.file_size = S) (hB : s.block_size = B) (hlen : s.data.length = S)
    (hb : b < 65535) (hle : b * B ≤ S) (hrep : b * B + B ≤ USIZE_MAX) :
    ∃ d : Data,
      Data.new (Acknowledgement.mk b) s = Except.ok (some d) ∧
      Tftp.respond fs (Tftp.Acknowledgement (Acknowledgement.mk b)) s =
        Except.ok (some (Tftp.Data d), s) ∧
      d.block = b + 1 ∧
      d.data.length = min ((b + 1) * B) S - b * B ∧
      (∀ (i : Nat), i < d.data.length → d.data[i]? = s.data[b * B + i]?) ∧
      ((b + 1) * B ≤ S → d.data.length = B) ∧
      (S < (b + 1) * B → d.data.length = S % B) ∧
      (b * B = S → d.data.length = 0) := by
  subst hS hB
  have h1 : ¬ (b * s.block_size > USIZE_MAX) := by omega
  have h2 : ¬ (b * s.block_size > s.file_size) := by omega
  have h3 : ¬ (b * s.block_size + s.block_size > USIZE_MAX) := by omega
  have h4 : ¬ (min (b * s.block_size + s.block_size) s.file_size > s.data.length) := by
    omega
  have hlen2 : ((s.data.take (min (b * s.block_size + s.block_size) s.file_size)).drop
      (b * s.block_size)).length =
      min ((b + 1) * s.block_size) s.file_size - b * s.block_size := by
    rw [List.length_drop, List.length_take, Nat.succ_mul]
    omega
  have hnew : Data.new (Acknowledgement.mk b) s = Except.ok (some (Data.mk
      ((b + 1) % 2 ^ 16)
      ((s.data.take (min (b * s.block_size + s.block_size) s.file_size)).drop
        (b * s.block_size)))) := by
    simp only [Data.new, if_neg h1, if_neg h2, if_neg h3, if_neg h4]
  refine ⟨Data.mk ((b + 1) % 2 ^ 16)
    ((s.data.take (min (b * s.block_size + s.block_size) s.file_size)).drop
      (b * s.block_size)), hnew, ?_, ?_, ?_, ?_, ?_, ?_, ?_⟩
  · simp only [Tftp.respond, hnew, Bind.bind, Except.bind]
    rfl
  · show (b + 1) % 2 ^ 16 = b + 1
    apply Nat.mod_eq_of_lt
    have : (2 : Nat) ^ 16 = 65536 := by norm_num
    omega
  · exact hlen2
  · intro i hi
    rw [hlen2] at hi
    rw [List.getElem?_drop, List.getElem?_take_of_lt]
    rw [Nat.succ_mul] at hi
    omega
  · intro hfull
    rw [hlen2, Nat.succ_mul] at *
    omega
  · intro hpart
    rw [hlen2]
    have hBpos : 0 < s.block_size := by
      rw [Nat.succ_mul] at hpart
      omega
    have hmod : s.file_size % s.block_size = s.file_size - b * s.block_size := by
      have hrepr : (s.file_size - b * s.block_size) + b * s.block_size = s.file_size := by
        omega
      conv_lhs => rw [← hrepr]
      rw [Nat.add_mul_mod_self_right]
      apply Nat.mod_eq_of_lt
      rw [Nat.succ_mul] at hpart
      omega
    rw [hmod]
    omega
  · intro hexact
    rw [hlen2]
    omega

/-- C1 witness: the amended theorem applied to a 3-byte resource with block
size 2 at acknowledgement block 1 (the final, short block). -/
theorem C1_ack_yields_next_block_witness :
    ((Session.mk [10, 20, 30] 2 3 1).file_size = 3 ∧
      (Session.mk [10, 20, 30] 2 3 1).data.length = 3 ∧
      1 < 65535 ∧ 1 * 2 ≤ 3 ∧ 1 * 2 + 2 ≤ USIZE_MAX) ∧
    (∃ d : Data,
      Data.new (Acknowledgement.mk 1) (Session.mk [10, 20, 30] 2 3 1) =
        Except.ok (some d) ∧
      Tftp.respond (fun _ => none) (Tftp.Acknowledgement (Acknowledgement.mk 1))
        (Session.mk [10, 20, 30] 2 3 1) =
        Except.ok (some (Tftp.Data d), Session.mk [10, 20, 30] 2 3 1) ∧
      d.block = 1 + 1 ∧
      d.data.length = min ((1 + 1) * 2) 3 - 1 * 2 ∧
      (∀ (i : Nat), i < d.data.length →
        d.data[i]? = (Session.mk [10, 20, 30] 2 3 1).data[1 * 2 + i]?) ∧
      ((1 + 1) * 2 ≤ 3 → d.data.length = 2) ∧
      (3 < (1 + 1) * 2 → d.data.length = 3 % 2) ∧
      (1 * 2 = 3 → d.data.length = 0)) :=
  ⟨⟨rfl, rfl, by norm_num, by norm_num, by norm_num [USIZE_MAX]⟩,
    C1_ack_yields_next_block (fun _ => none) (Session.mk [10, 20, 30] 2 3 1) 3 2 1
      rfl rfl rfl (by norm_num) (by norm_num) (by norm_num [USIZE_MAX])⟩

/-- C2 counterexample: the claim says the re-delivery of a duplicate
Acknowledgement "never produces a new Data packet" and "yields no output".
The session records nothing about which blocks were acknowledged, so handling
is a pure function of (session, packet): here block 1 of a 4-byte resource
with block size 2 is acknowledged, the session comes back unchanged, and
handling the identical Acknowledgement again — the duplicate delivery — again
yields `some` Data packet (a retransmission of block 2), not no output. -/
theorem C2_counterexample :
    Tftp.respond (fun _ => none) (Tftp.Acknowledgement (Acknowledgement.mk 1))
      (Session.mk [1, 2, 3, 4] 2 4 1) =
      Except.ok (some (Tftp.Data (Data.mk 2 [3, 4])), Session.mk [1, 2, 3, 4] 2 4 1) ∧
    Tftp.respond (fun _ => none) (Tftp.Acknowledgement (Acknowledgement.mk 1))
      (Session.mk [1, 2, 3, 4] 2 4 1) ≠
      Except.ok ((none : Option Tftp), Session.mk [1, 2, 3, 4] 2 4 1) := by
  refine ⟨rfl, ?_⟩
  intro h
  rw [show Tftp.respond (fun _ => none) (Tftp.Acknowledgement (Acknowledgement.mk 1))
      (Session.mk [1, 2, 3, 4] 2 4 1) =
      Except.ok (some (Tftp.Data (Data.mk 2 [3, 4])), Session.mk [1, 2, 3, 4] 2 4 1)
    from rfl] at h
  simp at h

/-- C2 (amended): re-delivering a duplicate Acknowledgement never changes the
session state, and handling it is idempotent in the sense that the second
delivery returns exactly the same result as the first: the same Data packet
(or the same absence of one) is produced again.  The original claim's stronger
"the second delivery yields no output" is false — the engine retransmits the
same block, as the counterexample shows. -/
theorem C2_duplicate_ack_idempotent (fs : List Nat → Option (List Nat))
    (a : Acknowledgement) (s : Session) (out : Option Tftp) (s' : Session)
    (h : Tftp.respond fs (Tftp.Acknowledgement a) s = Except.ok (out, s')) :
    s' = s ∧ Tftp.respond fs (Tftp.Acknowledgement a) s' = Except.ok (out, s') := by
  have hs : s' = s := by
    unfold Tftp.respond at h
    obtain ⟨d, hd, hf⟩ := exceptBindOk h
    simp only [Except.ok.injEq, Prod.mk.injEq] at hf
    exact hf.2.symm
  exact ⟨hs, hs ▸ h⟩

/-- C2 witness: the idempotence theorem applied to a concrete mid-transfer
acknowledgement. -/
theorem C2_duplicate_ack_idempotent_witness :
    Tftp.respond (fun _ => none) (Tftp.Acknowledgement (Acknowledgement.mk 0))
      (Session.mk [9, 8] 1 2 1) =
      Except.ok (some (Tftp.Data (Data.mk 1 [9])), Session.mk [9, 8] 1 2 1) ∧
    (Session.mk [9, 8] 1 2 1 = Session.mk [9, 8] 1 2 1 ∧
      Tftp.respond (fun _ => none) (Tftp.Acknowledgement (Acknowledgement.mk 0))
        (Session.mk [9, 8] 1 2 1) =
        Except.ok (some (Tftp.Data (Data.mk 1 [9])), Session.mk [9, 8] 1 2 1)) :=
  ⟨rfl, C2_duplicate_ack_idempotent (fun _ => none) (Acknowledgement.mk 0)
    (Session.mk [9, 8] 1 2 1) (some (Tftp.Data (Data.mk 1 [9])))
    (Session.mk [9, 8] 1 2 1) rfl⟩

/-- C4: for every Request that loads a resource, the produced
OptionAcknowledgement carries exactly the option names of the Request, in the
Request's order (so no option the client did not propose is ever added), and
every transfer-size entry carries the real loaded resource size in place of
the client-supplied value. -/
theorem C4_no_option_invented (fs : List Nat → Option (List Nat)) (req : ReadRequest)
    (content : List Nat) (s : Session) (oack : OptionAcknowledgement) (s' : Session)
    (hfs : fs req.filename = some content)
    (h : Tftp.respond fs (Tftp.ReadRequest req) s =
      Except.ok (some (Tftp.OptionAcknowledgement oack), s')) :
    oack.options.map TftpOption.name = req.options.map TftpOption.name ∧
    ∀ (i v : Nat), req.options[i]? = some (TftpOption.TransferSize v) →
      oack.options[i]? = some (TftpOption.TransferSize content.length) := by
  simp only [Tftp.respond] at h
  rw [hfs] at h
  simp only [OptionAcknowledgement.new, Except.ok.injEq, Prod.mk.injEq,
    Option.some.injEq, Tftp.OptionAcknowledgement.injEq] at h
  obtain ⟨ho, -⟩ := h
  have hoack : oack.options =
      (confirmOptions req.options
        (Session.mk (s.data ++ content) s.block_size content.length s.window_size)).1 := by
    rw [← ho]
  constructor
  · rw [hoack, confirmOptions_names]
  · intro i v hv
    rw [hoack, confirmOptions_tsize _ _ i v hv]

/-- C4 witness: a request proposing `tsize=0` and `blksize=8` against a 2-byte
resource is acknowledged with exactly those two option names in order, the
transfer size replaced by the real size 2. -/
theorem C4_no_option_invented_witness :
    ((fun _ : List Nat => some [9, 9]) (ReadRequest.mk [0x66] [0x6f]
      [TftpOption.TransferSize 0, TftpOption.BlockSize 8]).filename = some [9, 9]) ∧
    (OptionAcknowledgement.mk [TftpOption.TransferSize 2, TftpOption.BlockSize 8]).options.map
        TftpOption.name =
      (ReadRequest.mk [0x66] [0x6f]
        [TftpOption.TransferSize 0, TftpOption.BlockSize 8]).options.map TftpOption.name ∧
    (OptionAcknowledgement.mk
        [TftpOption.TransferSize 2, TftpOption.BlockSize 8]).options[0]? =
      some (TftpOption.TransferSize ([9, 9] : List Nat).length) :=
  ⟨rfl,
    (C4_no_option_invented (fun _ => some [9, 9])
      (ReadRequest.mk [0x66] [0x6f] [TftpOption.TransferSize 0, TftpOption.BlockSize 8])
      [9, 9] Session.new
      (OptionAcknowledgement.mk [TftpOption.TransferSize 2, TftpOption.BlockSize 8])
      (Session.mk [9, 9] 8 2 1) rfl rfl).1,
    (C4_no_option_invented (fun _ => some [9, 9])
      (ReadRequest.mk [0x66] [0x6f] [TftpOption.TransferSize 0, TftpOption.BlockSize 8])
      [9, 9] Session.new
      (OptionAcknowledgement.mk [TftpOption.TransferSize 2, TftpOption.BlockSize 8])
      (Session.mk [9, 9] 8 2 1) rfl rfl).2 0 0 rfl⟩

/-- C7: the claim says each acknowledgement cycle emits up to `window_size`
consecutive Data packets, and concretely that after negotiating
`blksize=1024`, `windowsize=4` against a 5000-byte resource the first window
sends blocks 1 through 4 before any further acknowledgement.  The code stores
`window_size` into the session but never reads it: `Tftp::respond` maps one
inbound Acknowledgement to at most ONE outbound packet (its result type holds
a single optional packet).  This theorem runs the claimed scenario: the
request negotiates block size 1024 and window size 4 as claimed, but the
acknowledgement that should open a 4-block window produces exactly one Data
packet — block 1 alone, 1024 bytes — and the session still waits for the next
acknowledgement. -/
theorem C7_window_size_never_used :
    Tftp.respond (fun _ => some resource5000)
      (Tftp.ReadRequest (ReadRequest.mk [0x66] [0x6f]
        [TftpOption.BlockSize 1024, TftpOption.WindowSize 4])) Session.new =
      Except.ok (some (Tftp.OptionAcknowledgement (OptionAcknowledgement.mk
        [TftpOption.BlockSize 1024, TftpOption.WindowSize 4])),
        Session.mk resource5000 1024 5000 4) ∧
    Tftp.respond (fun _ => some resource5000) (Tftp.Acknowledgement (Acknowledgement.mk 0))
      (Session.mk resource5000 1024 5000 4) =
      Except.ok (some (Tftp.Data (Data.mk 1 (List.replicate 1024 7))),
        Session.mk resource5000 1024 5000 4) := by
  have hlen : resource5000.length = 5000 := List.length_replicate 5000 7
  constructor
  · rw [respond_read_eq _ _ _ resource5000 rfl]
    simp only [OptionAcknowledgement.new, confirmOptions, Session.new, List.nil_append,
      hlen, Session.DEFAULT_BLOCK_SIZE, Session.DEFAULT_WINDOW_SIZE]
  · simp only [Tftp.respond, Data.new, hlen, Bind.bind, Except.bind]
    norm_num [USIZE_MAX]
    rw [resource5000, List.take_replicate]
    norm_num

/-- C9: the claim says a session whose resource needs more than 65535 blocks
must abort cleanly and that no Data packet with a wrapped block number is
ever emitted.  The code has no such abort: on a 65536-byte resource with
block size 1 (65536 data blocks needed), the acknowledgement of block 65535
makes `Data::new` emit a Data packet whose 16-bit block number has wrapped
to 0 — the transfer silently restarts its numbering instead of aborting. -/
theorem C9_block_number_silently_wraps :
    Data.new (Acknowledgement.mk 65535) session65536 = Except.ok (some (Data.mk 0 [0])) := by
  norm_num [Data.new, session65536, USIZE_MAX, List.take_replicate, List.drop_replicate]

/-- C10: handling an Acknowledgement never modifies the session: whatever
optional Data packet results, the returned session has the same `data`,
`block_size`, `file_size` and `window_size` as the one passed in (only
Request handling mutates the session). -/
theorem C10_ack_never_mutates_session (fs : List Nat → Option (List Nat))
    (a : Acknowledgement) (s : Session) (out : Option Tftp) (s' : Session)
    (h : Tftp.respond fs (Tftp.Acknowledgement a) s = Except.ok (out, s')) :
    s'.data = s.data ∧ s'.block_size = s.block_size ∧
    s'.file_size = s.file_size ∧ s'.window_size = s.window_size := by
  unfold Tftp.respond at h
  obtain ⟨d, hd, hf⟩ := exceptBindOk h
  simp only [Except.ok.injEq, Prod.mk.injEq] at hf
  obtain ⟨-, hs⟩ := hf
  subst hs
  exact ⟨rfl, rfl, rfl, rfl⟩

/-- C10 witness: the frame theorem applied to a concrete acknowledgement that
does produce a Data packet. -/
theorem C10_ack_never_mutates_session_witness :
    Tftp.respond (fun _ => none) (Tftp.Acknowledgement (Acknowledgement.mk 0))
      (Session.mk [5] 1 1 1) =
      Except.ok (some (Tftp.Data (Data.mk 1 [5])), Session.mk [5] 1 1 1) ∧
    ((Session.mk [5] 1 1 1).data = (Session.mk [5] 1 1 1).data ∧
      (Session.mk [5] 1 1 1).block_size = (Session.mk [5] 1 1 1).block_size ∧
      (Session.mk [5] 1 1 1).file_size = (Session.mk [5] 1 1 1).file_size ∧
      (Session.mk [5] 1 1 1).window_size = (Session.mk [5] 1 1 1).window_size) :=
  ⟨rfl, C10_ack_never_mutates_session (fun _ => none) (Acknowledgement.mk 0)
    (Session.mk [5] 1 1 1) (some (Tftp.Data (Data.mk 1 [5]))) (Session.mk [5] 1 1 1) rfl⟩
